import Mathlib

/-!
# Verification of the UAP (UDP Application Protocol) implementation

Shallow embedding of the repository `networks-lab-3`:

* `src/srikrishna/common/message.py` — the `UAPMessage` codec
  (`struct` format `!H B B I I I d`, a 24-byte header).
* `src/client.py` — the asyncio client: its codec
  (`struct` format `!H B B I I Q Q`, a 28-byte header), latency
  accounting, receive-path bookkeeping, and its state machine as a
  trace-level step function.
* `src/srikrishna/Server/server.py` and
  `src/srikrishna/Server/server_uap.py` — the two asyncio servers:
  `datagram_received` and the `check_timeouts` sweeper.

Bytes are modelled as `Nat` (each element `< 256` for well-formed data),
byte strings as `List Nat`, machine integers as `Nat` with explicit range
guards where `struct.pack` would raise, wall-clock instants as `Int`.
A Python function that raises is modelled as returning `none`.
-/

namespace UAP

/-! ## Big-endian integer serialization (the `struct` `!`-prefixed formats) -/

/-- Big-endian encoding of `n` on `w` bytes, as `struct.pack` produces for
the fixed-width unsigned fields (`H`, `B`, `I`, `Q`). -/
def natToBE : Nat → Nat → List Nat
  | 0, _ => []
  | w + 1, n => natToBE w (n / 256) ++ [n % 256]

/-- Big-endian decoding of a byte list, as `struct.unpack` performs. -/
def beToNat (l : List Nat) : Nat :=
  l.foldl (fun a b => a * 256 + b) 0

/-! ## The `UAPMessage` codec (`src/srikrishna/common/message.py`)

Header format `!H B B I I I d`: magic (2 bytes), version (1), command (1),
seq (4), session_id (4), clock (4 — the source packs the logical clock as a
32-bit `I`), timestamp (8 — a C `double`; we model the field by the natural
number whose 8 big-endian bytes are the IEEE-754 bit pattern `struct.pack "d"`
emits, which `struct` transports bit-exactly). `HEADER_SIZE` is therefore 24.
`struct.pack` raises on an out-of-range field; `pack` models this with
`none`. -/

namespace UAPMessage

def MAGIC : Nat := 0xC461
def VERSION : Nat := 1
def CMD_HELLO : Nat := 0
def CMD_DATA : Nat := 1
def CMD_ALIVE : Nat := 2
def CMD_GOODBYE : Nat := 3
def HEADER_SIZE : Nat := 24

structure Msg where
  command : Nat
  seq : Nat
  session_id : Nat
  clock : Nat
  timestamp : Nat
  payload : List Nat
  deriving DecidableEq, Repr

/-- `UAPMessage.pack`: header (format `!H B B I I I d`) followed by the
payload; `none` models the `struct.error` raised on an out-of-range field. -/
def pack (m : Msg) : Option (List Nat) :=
  if m.command < 256 ∧ m.seq < 2 ^ 32 ∧ m.session_id < 2 ^ 32 ∧
      m.clock < 2 ^ 32 ∧ m.timestamp < 2 ^ 64 then
    some (natToBE 2 MAGIC ++ natToBE 1 VERSION ++ natToBE 1 m.command ++
      natToBE 4 m.seq ++ natToBE 4 m.session_id ++ natToBE 4 m.clock ++
      natToBE 8 m.timestamp ++ m.payload)
  else none

/-- `UAPMessage.unpack`: `None` when the input is shorter than
`HEADER_SIZE` or the magic or version field mismatches; otherwise the
decoded message, with `packet[HEADER_SIZE:]` as payload. -/
def unpack (packet : List Nat) : Option Msg :=
  if packet.length < HEADER_SIZE then none
  else
    let magic := beToNat (packet.take 2)
    let r1 := packet.drop 2
    let version := beToNat (r1.take 1)
    let r2 := r1.drop 1
    let command := beToNat (r2.take 1)
    let r3 := r2.drop 1
    let seq := beToNat (r3.take 4)
    let r4 := r3.drop 4
    let sid := beToNat (r4.take 4)
    let r5 := r4.drop 4
    let clock := beToNat (r5.take 4)
    let r6 := r5.drop 4
    let ts := beToNat (r6.take 8)
    let payload := r6.drop 8
    if magic ≠ MAGIC ∨ version ≠ VERSION then none
    else some ⟨command, seq, sid, clock, ts, payload⟩

end UAPMessage

/-! ## The client codec (`src/client.py`)

Header format `!H B B I I Q Q`, 28 bytes; `parse_packet` performs **no**
validation at all: it raises (`none` here) only when the input is shorter
than the 28-byte header (as `struct.unpack` does), and otherwise accepts
any magic, version or command. -/

namespace Client

def MAGIC : Nat := 0xC461
def VERSION : Nat := 1
def HELLO : Nat := 0
def DATA : Nat := 1
def ALIVE : Nat := 2
def GOODBYE : Nat := 3
def HEADER_SIZE : Nat := 28

structure Header where
  magic : Nat
  version : Nat
  command : Nat
  sequence_number : Nat
  session_id : Nat
  logical_clock : Nat
  timestamp : Nat
  deriving DecidableEq, Repr

/-- `build_header`: `struct.pack` of format `!H B B I I Q Q`; `none`
models the `struct.error` raised on an out-of-range field. -/
def build_header (magic version command seq session_id logical_clock
    timestamp : Nat) : Option (List Nat) :=
  if magic < 2 ^ 16 ∧ version < 256 ∧ command < 256 ∧ seq < 2 ^ 32 ∧
      session_id < 2 ^ 32 ∧ logical_clock < 2 ^ 64 ∧ timestamp < 2 ^ 64 then
    some (natToBE 2 magic ++ natToBE 1 version ++ natToBE 1 command ++
      natToBE 4 seq ++ natToBE 4 session_id ++ natToBE 8 logical_clock ++
      natToBE 8 timestamp)
  else none

/-- `build_packet`: header with the constant `MAGIC` and `VERSION`,
followed by the payload. -/
def build_packet (command seq session_id logical_clock timestamp : Nat)
    (payload : List Nat) : Option (List Nat) :=
  (build_header MAGIC VERSION command seq session_id logical_clock
    timestamp).map (· ++ payload)

/-- `parse_packet`: `struct.unpack` of `data[:HEADER_SIZE]` — which raises
(`none`) when the input is shorter than 28 bytes — plus
`data[HEADER_SIZE:]` as payload.  No magic, version or command check. -/
def parse_packet (data : List Nat) : Option (Header × List Nat) :=
  if data.length < HEADER_SIZE then none
  else
    let magic := beToNat (data.take 2)
    let r1 := data.drop 2
    let version := beToNat (r1.take 1)
    let r2 := r1.drop 1
    let command := beToNat (r2.take 1)
    let r3 := r2.drop 1
    let seq := beToNat (r3.take 4)
    let r4 := r3.drop 4
    let sid := beToNat (r4.take 4)
    let r5 := r4.drop 4
    let clock := beToNat (r5.take 8)
    let r6 := r5.drop 8
    let ts := beToNat (r6.take 8)
    let payload := r6.drop 8
    some (⟨magic, version, command, seq, sid, clock, ts⟩, payload)

end Client

/-! ## Server data model (shared by `server.py` and `server_uap.py`)

Both servers keep `self.sessions`, a dict from session id to
`{"expected": …, "addr": …, "last_seen": …}`, plus `server_seq` and
`server_clock`.  The dict is modelled as an association list with unique
keys (a Python dict can never hold a duplicate key).  A datagram handler
returns the new state, the packets passed to `transport.sendto` (in
order) and the lines printed (in order).  Sequence-number classification
compares Python ints, so `expected - 1` is computed in `Int`. -/

/-- One entry of the Session Table: `{"expected": …, "addr": …,
"last_seen": …}`. Addresses are opaque tokens, wall-clock instants `Int`. -/
structure Session where
  expected : Nat
  addr : Nat
  last_seen : Int
  deriving DecidableEq, Repr

/-- A decoded datagram as `unpack_header` returns it. -/
structure Pkt where
  command : Nat
  seq : Nat
  session_id : Nat
  clock : Nat
  ts : Int
  payload : List Nat
  deriving DecidableEq, Repr

/-- A packet handed to `transport.sendto`: the `pack_header` arguments,
the `time.time()` stamp and the destination address. -/
structure Out where
  command : Nat
  seq : Nat
  session_id : Nat
  clock : Nat
  ts : Int
  addr : Nat
  deriving DecidableEq, Repr

/-- One printed server event record. -/
inductive Rec where
  | malformed
  | unknownSession (sid : Nat)
  | created (sid seq : Nat)
  | payloadLine (sid seq : Nat) (payload : List Nat)
  | duplicate (sid seq : Nat)
  | duplicateBang
  | lost (sid missing : Nat)
  | lostBang
  | protoErrorOld (sid seq expected : Nat)
  | protoErrorCmd (sid cmd : Nat)
  | goodbyeFromClient (sid seq : Nat)
  | sessionClosed (sid : Nat)
  | timeoutClosed (sid : Nat)
  deriving DecidableEq, Repr

abbrev Sessions := List (Nat × Session)

/-- Dict lookup `self.sessions[sid]` / membership `sid in self.sessions`. -/
def lookupSess : Sessions → Nat → Option Session
  | [], _ => none
  | (k, s) :: rest, sid => if k = sid then some s else lookupSess rest sid

/-- Dict update `self.sessions[sid] = s` for a key already present. -/
def setSess : Sessions → Nat → Session → Sessions
  | [], _, _ => []
  | (k, s₀) :: rest, sid, s =>
      if k = sid then (k, s) :: rest else (k, s₀) :: setSess rest sid s

/-- Dict deletion `del self.sessions[sid]`. -/
def eraseSess : Sessions → Nat → Sessions
  | [], _ => []
  | (k, s₀) :: rest, sid =>
      if k = sid then rest else (k, s₀) :: eraseSess rest sid

structure SrvState where
  sessions : Sessions
  server_seq : Nat
  server_clock : Nat
  deriving DecidableEq, Repr

def SrvState.init : SrvState := ⟨[], 0, 0⟩

def CMD_HELLO : Nat := 0
def CMD_DATA : Nat := 1
def CMD_ALIVE : Nat := 2
def CMD_GOODBYE : Nat := 3

/-- The Session Table invariant every Python dict enjoys. -/
def keysNodup (ss : Sessions) : Prop := (ss.map Prod.fst).Nodup


/-! ## `ServerProtocol.datagram_received` of `src/srikrishna/Server/server.py`

This variant updates the logical clock (`max(local, remote) + 1`) on
every decoded datagram, refreshes `last_seen` on every packet of an
existing session, and replies ALIVE also to duplicates.
`INACTIVITY_LIMIT` is 5 seconds here. -/

namespace Srv

def INACTIVITY_LIMIT : Int := 5

/-- `datagram_received(data, addr)` at wall-clock time `now`; `pkt?` is
the result of `unpack_header(data)`.  The payload line shown by
`print(f"0x{sid:08x} [{cseq}] {line}")` is recorded as the raw payload
bytes (the `decode(errors="replace").rstrip("\n")` step is display
formatting on the sink, not state). -/
def datagramReceived (st : SrvState) (pkt? : Option Pkt) (addr : Nat)
    (now : Int) : SrvState × List Out × List Rec :=
  match pkt? with
  | none => (st, [], [Rec.malformed])
  | some pkt =>
    let clk := max st.server_clock pkt.clock + 1
    let st₁ : SrvState := { st with server_clock := clk }
    let sid := pkt.session_id
    let cmd := pkt.command
    let cseq := pkt.seq
    match lookupSess st₁.sessions sid with
    | none =>
      if cmd ≠ CMD_HELLO then (st₁, [], [Rec.unknownSession sid])
      else
        ({ st₁ with
            sessions := (sid, ⟨0, addr, now⟩) :: st₁.sessions,
            server_seq := st₁.server_seq + 1 },
         [⟨CMD_HELLO, st₁.server_seq, sid, clk, now, addr⟩],
         [Rec.created sid cseq])
    | some sess₀ =>
      let sess : Session := { sess₀ with last_seen := now }
      let st₂ : SrvState := { st₁ with sessions := setSess st₁.sessions sid sess }
      if cmd = CMD_DATA then
        let exp := sess.expected
        if cseq = exp then
          ({ st₂ with
              sessions := setSess st₂.sessions sid { sess with expected := exp + 1 },
              server_seq := st₂.server_seq + 1 },
           [⟨CMD_ALIVE, st₂.server_seq, sid, clk, now, addr⟩],
           [Rec.payloadLine sid cseq pkt.payload])
        else if (cseq : Int) = (exp : Int) - 1 then
          ({ st₂ with server_seq := st₂.server_seq + 1 },
           [⟨CMD_ALIVE, st₂.server_seq, sid, clk, now, addr⟩],
           [Rec.duplicate sid cseq])
        else if cseq > exp then
          ({ st₂ with
              sessions := setSess st₂.sessions sid { sess with expected := cseq + 1 },
              server_seq := st₂.server_seq + 1 },
           [⟨CMD_ALIVE, st₂.server_seq, sid, clk, now, addr⟩],
           (List.range' exp (cseq - exp)).map (Rec.lost sid) ++
             [Rec.payloadLine sid cseq pkt.payload])
        else
          ({ st₂ with
              sessions := eraseSess st₂.sessions sid,
              server_seq := st₂.server_seq + 1 },
           [⟨CMD_GOODBYE, st₂.server_seq, sid, clk, now, addr⟩],
           [Rec.protoErrorOld sid cseq exp])
      else if cmd = CMD_GOODBYE then
        ({ st₂ with
            sessions := eraseSess st₂.sessions sid,
            server_seq := st₂.server_seq + 1 },
         [⟨CMD_GOODBYE, st₂.server_seq, sid, clk, now, addr⟩],
         [Rec.goodbyeFromClient sid cseq, Rec.sessionClosed sid])
      else
        ({ st₂ with
            sessions := eraseSess st₂.sessions sid,
            server_seq := st₂.server_seq + 1 },
         [⟨CMD_GOODBYE, st₂.server_seq, sid, clk, now, addr⟩],
         [Rec.protoErrorCmd sid cmd])

/-- Whether a session is evicted by the sweeper:
`now - sess["last_seen"] > INACTIVITY_LIMIT`. -/
def expiredP (now : Int) (p : Nat × Session) : Bool :=
  now - p.2.last_seen > INACTIVITY_LIMIT

/-- The body of one `check_timeouts` sweep over a precomputed list of
expired session ids: print, GOODBYE to the recorded address, delete. -/
def sweepGo (st : SrvState) (now : Int) : List Nat → SrvState × List Out × List Rec
  | [] => (st, [], [])
  | sid :: rest =>
    match lookupSess st.sessions sid with
    | none => sweepGo st now rest
    | some sess =>
      let out : Out := ⟨CMD_GOODBYE, st.server_seq, sid, st.server_clock, now, sess.addr⟩
      let st' : SrvState := { st with
        sessions := eraseSess st.sessions sid,
        server_seq := st.server_seq + 1 }
      let r := sweepGo st' now rest
      (r.1, out :: r.2.1, Rec.timeoutClosed sid :: r.2.2)

/-- One 1-second tick of `check_timeouts` at time `now`: collect the ids
with `now - last_seen > INACTIVITY_LIMIT`, then close each. -/
def check_timeouts (st : SrvState) (now : Int) : SrvState × List Out × List Rec :=
  sweepGo st now ((st.sessions.filter (expiredP now)).map Prod.fst)

/-- The recorded address of a session, read off the table. -/
def addrOf (st : SrvState) (sid : Nat) : Nat :=
  ((lookupSess st.sessions sid).map Session.addr).getD 0


end Srv

/-! ## `ServerProtocol.datagram_received` of `src/srikrishna/Server/server_uap.py`

This variant differs from `server.py`: it never touches `server_clock`
(the clock stays at its initial 0 and every outgoing packet is stamped
with it), it never refreshes `last_seen` after session creation, its
duplicate branch only prints (no ALIVE reply), malformed and
unknown-session datagrams produce no output line, and
`INACTIVITY_LIMIT` is 10 seconds.  Its DATA chain tests, in order,
`cseq == exp`, `cseq == exp - 1`, `cseq < exp - 1`, `cseq > exp`; the
four cases are exhaustive, so the trailing no-match arm is dead code. -/

namespace Uap

def INACTIVITY_LIMIT : Int := 10

/-- `datagram_received(data, addr)` of `server_uap.py` at time `now`. -/
def datagramReceived (st : SrvState) (pkt? : Option Pkt) (addr : Nat)
    (now : Int) : SrvState × List Out × List Rec :=
  match pkt? with
  | none => (st, [], [])
  | some pkt =>
    let sid := pkt.session_id
    let cmd := pkt.command
    let cseq := pkt.seq
    match lookupSess st.sessions sid with
    | none =>
      if cmd ≠ CMD_HELLO then (st, [], [])
      else
        ({ st with
            sessions := (sid, ⟨0, addr, now⟩) :: st.sessions,
            server_seq := st.server_seq + 1 },
         [⟨CMD_HELLO, st.server_seq, sid, st.server_clock, now, addr⟩],
         [Rec.created sid cseq])
    | some sess =>
      if cmd = CMD_DATA then
        let exp := sess.expected
        if cseq = exp then
          ({ st with
              sessions := setSess st.sessions sid { sess with expected := exp + 1 },
              server_seq := st.server_seq + 1 },
           [⟨CMD_ALIVE, st.server_seq, sid, st.server_clock, now, addr⟩],
           [Rec.payloadLine sid cseq pkt.payload])
        else if (cseq : Int) = (exp : Int) - 1 then
          (st, [], [Rec.duplicateBang])
        else if (cseq : Int) < (exp : Int) - 1 then
          ({ st with
              sessions := eraseSess st.sessions sid,
              server_seq := st.server_seq + 1 },
           [⟨CMD_GOODBYE, st.server_seq, sid, st.server_clock, now, addr⟩],
           [Rec.protoErrorOld sid cseq exp])
        else if cseq > exp then
          ({ st with
              sessions := setSess st.sessions sid { sess with expected := cseq + 1 },
              server_seq := st.server_seq + 1 },
           [⟨CMD_ALIVE, st.server_seq, sid, st.server_clock, now, addr⟩],
           List.replicate (cseq - exp) Rec.lostBang ++
             [Rec.payloadLine sid cseq pkt.payload])
        else (st, [], [])
      else if cmd = CMD_GOODBYE then
        ({ st with
            sessions := eraseSess st.sessions sid,
            server_seq := st.server_seq + 1 },
         [⟨CMD_GOODBYE, st.server_seq, sid, st.server_clock, now, addr⟩],
         [Rec.goodbyeFromClient sid cseq, Rec.sessionClosed sid])
      else
        ({ st with
            sessions := eraseSess st.sessions sid,
            server_seq := st.server_seq + 1 },
         [⟨CMD_GOODBYE, st.server_seq, sid, st.server_clock, now, addr⟩],
         [Rec.protoErrorCmd sid cmd])

/-- One `check_timeouts` sweep of `server_uap.py`: identical loop body,
but with this file's 10-second limit. -/
def check_timeouts (st : SrvState) (now : Int) : SrvState × List Out × List Rec :=
  Srv.sweepGo st now
    ((st.sessions.filter (fun p => now - p.2.last_seen > INACTIVITY_LIMIT)).map Prod.fst)

end Uap

/-! ## Client latency accounting and receive-path bookkeeping (`src/client.py`) -/

namespace Client

/-- `add_latency(server_timestamp)`: add `now_ms() - server_timestamp` to
`TOTAL_LATENCY` and bump `NUMBER_OF_SERVER_MESSAGE`. -/
def add_latency (total : Int) (count : Nat) (now ts : Int) : Int × Nat :=
  (total + (now - ts), count + 1)

/-- `update_logical_clock(server_logical_clock)`:
`CLIENT_LOGICAL_CLOCK = max(server_logical_clock, CLIENT_LOGICAL_CLOCK) + 1`. -/
def update_logical_clock (server_logical_clock client_logical_clock : Nat) : Nat :=
  max server_logical_clock client_logical_clock + 1

/-- `print_one_way_latency`: `TOTAL_LATENCY / NUMBER_OF_SERVER_MESSAGE`
(Python true division); `none` models the `ZeroDivisionError` raised
when no packet was ever received. -/
def print_one_way_latency (total : Int) (count : Nat) : Option ℚ :=
  if count = 0 then none else some ((total : ℚ) / (count : ℚ))

/-- The five client FSA states plus START (`client.py` constants 0–5). -/
inductive CState where
  | start
  | helloWait
  | ready
  | readyTimer
  | closing
  | closed
  deriving DecidableEq, Repr

/-- The client-side mutable context a received datagram touches:
`STATE`, `CLIENT_LOGICAL_CLOCK`, `TOTAL_LATENCY`,
`NUMBER_OF_SERVER_MESSAGE`. -/
structure RecvCtx where
  state : CState
  clock : Nat
  total : Int
  count : Nat
  deriving DecidableEq, Repr

/-- The per-packet bookkeeping every receive path performs:
`add_latency(hdr["timestamp"])` then
`update_logical_clock(hdr["logical_clock"])`. -/
def recvBookkeeping (ctx : RecvCtx) (hdr : Header) (now : Int) : RecvCtx :=
  { ctx with
    total := ctx.total + (now - (hdr.timestamp : Int))
    count := ctx.count + 1
    clock := update_logical_clock hdr.logical_clock ctx.clock }

/-- One received datagram processed by the receive path active in
`ctx.state`:

* `HELLO_WAIT` — `run_hello_wait`: HELLO → READY, anything else → CLOSED;
* `READY` — `read_socket_ready`: ALIVE → keep looping in READY,
  anything else → CLOSED (via `run_ready`);
* `READY_TIMER` — `run_ready_timer`'s socket branch: ALIVE → READY,
  anything else → CLOSED;
* `CLOSING` — `keep_looping_for_alive`: ALIVE → keep looping; GOODBYE or
  anything else → CLOSED, and `run_closing` then repeats `add_latency`
  and `update_logical_clock` on the same header a second time;
* `START`/`CLOSED` — no receive path is active; the datagram is not read.
-/
def clientReceive (ctx : RecvCtx) (hdr : Header) (now : Int) : RecvCtx :=
  match ctx.state with
  | CState.helloWait =>
    let c := recvBookkeeping ctx hdr now
    if hdr.command = HELLO then { c with state := CState.ready }
    else { c with state := CState.closed }
  | CState.ready =>
    let c := recvBookkeeping ctx hdr now
    if hdr.command = ALIVE then { c with state := CState.ready }
    else { c with state := CState.closed }
  | CState.readyTimer =>
    let c := recvBookkeeping ctx hdr now
    if hdr.command = ALIVE then { c with state := CState.ready }
    else { c with state := CState.closed }
  | CState.closing =>
    let c := recvBookkeeping ctx hdr now
    if hdr.command = ALIVE then { c with state := CState.closing }
    else { (recvBookkeeping c hdr now) with state := CState.closed }
  | _ => ctx

end Client

/-! ## Client send-trace machine (`src/client.py`, `take_action` and the
state handlers)

A trace-level model of which packets the client sends.  Each step is one
completion of one of the client's three event sources:

* `pkt c` — the receive path active in the current state reads a
  datagram whose command is `c`;
* `timer` — the deadline of the current state fires (`asyncio.wait_for`
  timeout in HELLO_WAIT/CLOSING, the `asyncio.wait` timeout in
  READY_TIMER; READY has no timer);
* `input k` — the input read belonging to the current state's handler
  completes with a line (`eof` = empty read, `quit` = stripped `"q"`,
  `text` = anything else);
* `dangling k` — a `read_input_and_send` task spawned by an earlier
  `run_ready_timer` and left pending (that handler never cancels its
  tasks) completes with a line.

`parked` counts those leftover `read_input_and_send` tasks: one is left
parked in `readline` whenever `run_ready_timer` exits through its socket
branch or its timeout branch.  When such a task completes with a text
line it calls `send_data` regardless of the state reached meanwhile —
`STOP_READING` is only rechecked at the top of its loop — and when it
completes with EOF/`"q"` it just sets `STATE = CLOSING`.  In CLOSED the
process has already called `os._exit(0)`, so nothing fires.  Sent
commands are recorded in protocol numbering (0 = HELLO, 1 = DATA,
3 = GOODBYE). -/

namespace ClientFSA

open Client (CState)

inductive Kind where
  | eof
  | quit
  | text
  deriving DecidableEq, Repr

inductive Ev where
  | pkt (c : Nat)
  | timer
  | input (k : Kind)
  | dangling (k : Kind)
  deriving DecidableEq, Repr

structure M where
  state : CState
  parked : Nat
  interactive : Bool
  sent : List Nat
  deriving DecidableEq, Repr

/-- A line that ends the input stream: EOF always, a stripped `"q"` only
in interactive mode (`INPUT_FILE_NAME is None`). -/
def isClose (interactive : Bool) : Kind → Bool
  | Kind.eof => true
  | Kind.quit => interactive
  | Kind.text => false

/-- `take_action` enters `run_start`, which sends HELLO(seq=0) and moves
to HELLO_WAIT. -/
def init (interactive : Bool) : M :=
  ⟨CState.helloWait, 0, interactive, [Client.HELLO]⟩

def step (m : M) (e : Ev) : M :=
  match e with
  | Ev.pkt c =>
    match m.state with
    | CState.helloWait =>
      -- run_hello_wait: HELLO → READY, anything else → CLOSED
      if c = Client.HELLO then { m with state := CState.ready }
      else { m with state := CState.closed }
    | CState.ready =>
      -- read_socket_ready: ALIVE → keep waiting in READY, else CLOSED
      if c = Client.ALIVE then m
      else { m with state := CState.closed }
    | CState.readyTimer =>
      -- run_ready_timer socket branch: the handler returns while its
      -- read_input_and_send task is still parked in readline
      if c = Client.ALIVE then
        { m with state := CState.ready, parked := m.parked + 1 }
      else { m with state := CState.closed, parked := m.parked + 1 }
    | CState.closing =>
      -- keep_looping_for_alive: ALIVE → keep looping, else → CLOSED
      if c = Client.ALIVE then m
      else { m with state := CState.closed }
    | _ => m
  | Ev.timer =>
    match m.state with
    | CState.helloWait =>
      -- run_hello_wait timeout: send GOODBYE, → CLOSING
      { m with state := CState.closing, sent := m.sent ++ [Client.GOODBYE] }
    | CState.readyTimer =>
      -- run_ready_timer timeout: send GOODBYE, → CLOSING; the
      -- read_input_and_send task stays parked
      { m with state := CState.closing, parked := m.parked + 1,
               sent := m.sent ++ [Client.GOODBYE] }
    | CState.closing =>
      -- run_closing timeout: → CLOSED, nothing sent
      { m with state := CState.closed }
    | _ => m
  | Ev.input k =>
    match m.state with
    | CState.ready =>
      -- run_ready / wait_for_one_input: EOF or interactive "q" →
      -- send GOODBYE, → CLOSING; otherwise send_data, → READY_TIMER
      if isClose m.interactive k then
        { m with state := CState.closing, sent := m.sent ++ [Client.GOODBYE] }
      else
        { m with state := CState.readyTimer, sent := m.sent ++ [Client.DATA] }
    | CState.readyTimer =>
      -- run_ready_timer / read_input_and_send: EOF or interactive "q"
      -- completes the task with STATE = CLOSING and run_ready_timer
      -- sends GOODBYE; a text line is sent as DATA and the loop keeps
      -- reading in READY_TIMER
      if isClose m.interactive k then
        { m with state := CState.closing, sent := m.sent ++ [Client.GOODBYE] }
      else
        { m with sent := m.sent ++ [Client.DATA] }
    | _ => m
  | Ev.dangling k =>
    match m.state with
    | CState.closed => m
    | _ =>
      if m.parked = 0 then m
      else if isClose m.interactive k then
        { m with state := CState.closing, parked := m.parked - 1 }
      else
        { m with parked := m.parked - 1, sent := m.sent ++ [Client.DATA] }

/-- The machine after a whole event trace. -/
def run (m : M) (evs : List Ev) : M :=
  evs.foldl step m

/-- The language the claim states: `HELLO · DATA* · GOODBYE?`, encoded
over the tail after the leading HELLO. -/
def dataThenOptGoodbye : List Nat → Bool
  | [] => true
  | [c] => c = Client.DATA ∨ c = Client.GOODBYE
  | c :: rest => c = Client.DATA && dataThenOptGoodbye rest

/-- Membership in `HELLO · DATA* · GOODBYE?`. -/
def claimLang : List Nat → Bool
  | c :: rest => c = Client.HELLO && dataThenOptGoodbye rest
  | [] => false

def allData (l : List Nat) : Bool := l.all (· = Client.DATA)

/-- The tail of the amended language: `DATA* · (GOODBYE · DATA*)?`. -/
def amendedTail : List Nat → Bool
  | [] => true
  | c :: rest =>
    if c = Client.DATA then amendedTail rest
    else c = Client.GOODBYE && allData rest

/-- Membership in the amended language
`HELLO · DATA* · (GOODBYE · DATA*)?`: the DATA after the GOODBYE come
only from input reads that were already pending when the GOODBYE was
sent. -/
def amendedLang : List Nat → Bool
  | c :: rest => c = Client.HELLO && amendedTail rest
  | [] => false

/-- The send-trace invariant: the sent list is a HELLO followed by a
tail that is all DATA while the machine has not entered CLOSING, and in
the amended language's tail shape once it has. -/
def Inv (m : M) : Prop :=
  ∃ rest, m.sent = Client.HELLO :: rest ∧
    (allData rest = true ∨
      (amendedTail rest = true ∧
        (m.state = Client.CState.closing ∨ m.state = Client.CState.closed)))

end ClientFSA

/-! ## Codec lemmas -/

theorem natToBE_length (w n : Nat) : (natToBE w n).length = w := by
  induction w generalizing n with
  | zero => rfl
  | succ w ih => simp [natToBE, ih]

theorem beToNat_append_single (xs : List Nat) (b : Nat) :
    beToNat (xs ++ [b]) = beToNat xs * 256 + b := by
  simp [beToNat, List.foldl_append]

theorem beToNat_natToBE (w n : Nat) : beToNat (natToBE w n) = n % 256 ^ w := by
  induction w generalizing n with
  | zero => simp [natToBE, beToNat, Nat.mod_one]
  | succ w ih =>
    rw [natToBE, beToNat_append_single, ih]
    rw [pow_succ, Nat.mul_comm (256 ^ w) 256, Nat.mod_mul]
    ring

theorem beToNat_natToBE_of_lt {w n : Nat} (h : n < 256 ^ w) :
    beToNat (natToBE w n) = n := by
  rw [beToNat_natToBE, Nat.mod_eq_of_lt h]

namespace UAPMessage

theorem unpack_pack {m : Msg} (hc : m.command < 256) (hs : m.seq < 2 ^ 32)
    (hid : m.session_id < 2 ^ 32) (hk : m.clock < 2 ^ 32)
    (ht : m.timestamp < 2 ^ 64) :
    (pack m).bind unpack = some m := by
  rw [pack, if_pos ⟨hc, hs, hid, hk, ht⟩, Option.some_bind, unpack]
  have hlen : (natToBE 2 MAGIC ++ natToBE 1 VERSION ++ natToBE 1 m.command ++
      natToBE 4 m.seq ++ natToBE 4 m.session_id ++ natToBE 4 m.clock ++
      natToBE 8 m.timestamp ++ m.payload).length = 24 + m.payload.length := by
    simp [natToBE_length]; omega
  rw [if_neg (by simp only [hlen, HEADER_SIZE]; omega)]
  simp only [List.append_assoc]
  rw [List.take_left' (natToBE_length 2 MAGIC),
    List.drop_left' (natToBE_length 2 MAGIC),
    List.take_left' (natToBE_length 1 VERSION),
    List.drop_left' (natToBE_length 1 VERSION),
    List.take_left' (natToBE_length 1 m.command),
    List.drop_left' (natToBE_length 1 m.command),
    List.take_left' (natToBE_length 4 m.seq),
    List.drop_left' (natToBE_length 4 m.seq),
    List.take_left' (natToBE_length 4 m.session_id),
    List.drop_left' (natToBE_length 4 m.session_id),
    List.take_left' (natToBE_length 4 m.clock),
    List.drop_left' (natToBE_length 4 m.clock),
    List.take_left' (natToBE_length 8 m.timestamp),
    List.drop_left' (natToBE_length 8 m.timestamp)]
  rw [beToNat_natToBE_of_lt (show MAGIC < 256 ^ 2 by norm_num [MAGIC]),
    beToNat_natToBE_of_lt (show VERSION < 256 ^ 1 by norm_num [VERSION]),
    beToNat_natToBE_of_lt (show m.command < 256 ^ 1 by simpa using hc),
    beToNat_natToBE_of_lt (show m.seq < 256 ^ 4 by norm_num at hs ⊢; omega),
    beToNat_natToBE_of_lt
      (show m.session_id < 256 ^ 4 by norm_num at hid ⊢; omega),
    beToNat_natToBE_of_lt (show m.clock < 256 ^ 4 by norm_num at hk ⊢; omega),
    beToNat_natToBE_of_lt
      (show m.timestamp < 256 ^ 8 by norm_num at ht ⊢; omega)]
  simp

theorem unpack_eq_none_iff (packet : List Nat) :
    unpack packet = none ↔
      packet.length < HEADER_SIZE ∨ beToNat (packet.take 2) ≠ MAGIC ∨
        beToNat ((packet.drop 2).take 1) ≠ VERSION := by
  rw [unpack]
  by_cases hlen : packet.length < HEADER_SIZE
  · simp [hlen]
  · rw [if_neg hlen]
    by_cases hm : beToNat (packet.take 2) = MAGIC
    · by_cases hv : beToNat ((packet.drop 2).take 1) = VERSION
      · simp [hlen, hm, hv]
      · simp [hlen, hm, hv]
    · simp [hlen, hm]

end UAPMessage

namespace Client

theorem parse_build_packet {command seq session_id logical_clock
    timestamp : Nat} (payload : List Nat) (hc : command < 256)
    (hs : seq < 2 ^ 32) (hid : session_id < 2 ^ 32)
    (hk : logical_clock < 2 ^ 64) (ht : timestamp < 2 ^ 64) :
    (build_packet command seq session_id logical_clock timestamp
        payload).bind parse_packet =
      some (⟨MAGIC, VERSION, command, seq, session_id, logical_clock,
        timestamp⟩, payload) := by
  rw [build_packet, build_header,
    if_pos ⟨by norm_num [MAGIC], by norm_num [VERSION], hc, hs, hid, hk, ht⟩,
    Option.map_some', Option.some_bind, parse_packet]
  have hlen : ((natToBE 2 MAGIC ++ natToBE 1 VERSION ++ natToBE 1 command ++
      natToBE 4 seq ++ natToBE 4 session_id ++ natToBE 8 logical_clock ++
      natToBE 8 timestamp) ++ payload).length = 28 + payload.length := by
    simp [natToBE_length]; omega
  rw [if_neg (by simp only [hlen, HEADER_SIZE]; omega)]
  simp only [List.append_assoc]
  rw [List.take_left' (natToBE_length 2 MAGIC),
    List.drop_left' (natToBE_length 2 MAGIC),
    List.take_left' (natToBE_length 1 VERSION),
    List.drop_left' (natToBE_length 1 VERSION),
    List.take_left' (natToBE_length 1 command),
    List.drop_left' (natToBE_length 1 command),
    List.take_left' (natToBE_length 4 seq),
    List.drop_left' (natToBE_length 4 seq),
    List.take_left' (natToBE_length 4 session_id),
    List.drop_left' (natToBE_length 4 session_id),
    List.take_left' (natToBE_length 8 logical_clock),
    List.drop_left' (natToBE_length 8 logical_clock),
    List.take_left' (natToBE_length 8 timestamp),
    List.drop_left' (natToBE_length 8 timestamp)]
  rw [beToNat_natToBE_of_lt (show MAGIC < 256 ^ 2 by norm_num [MAGIC]),
    beToNat_natToBE_of_lt (show VERSION < 256 ^ 1 by norm_num [VERSION]),
    beToNat_natToBE_of_lt (show command < 256 ^ 1 by simpa using hc),
    beToNat_natToBE_of_lt (show seq < 256 ^ 4 by norm_num at hs ⊢; omega),
    beToNat_natToBE_of_lt
      (show session_id < 256 ^ 4 by norm_num at hid ⊢; omega),
    beToNat_natToBE_of_lt
      (show logical_clock < 256 ^ 8 by norm_num at hk ⊢; omega),
    beToNat_natToBE_of_lt
      (show timestamp < 256 ^ 8 by norm_num at ht ⊢; omega)]

end Client

/-! ## Session-table lemmas

A Python dict cannot hold a duplicate key, so every reachable Session
Table satisfies `keysNodup`; the lemmas that depend on first-match
versus only-match coincidence take it as a hypothesis. -/

theorem lookupSess_eq_none_iff (ss : Sessions) (sid : Nat) :
    lookupSess ss sid = none ↔ sid ∉ ss.map Prod.fst := by
  induction ss with
  | nil => simp [lookupSess]
  | cons p rest ih =>
    obtain ⟨k, s⟩ := p
    by_cases hk : k = sid
    · subst hk; simp [lookupSess]
    · simp [lookupSess, hk, ih, Ne.symm hk]

theorem lookupSess_isSome_of_mem_keys {ss : Sessions} {sid : Nat}
    (h : sid ∈ ss.map Prod.fst) : (lookupSess ss sid).isSome := by
  rcases h' : lookupSess ss sid with _ | s
  · exact absurd ((lookupSess_eq_none_iff ss sid).mp h') (not_not_intro h)
  · rfl

theorem mem_of_lookupSess_eq_some {ss : Sessions} {sid : Nat} {s : Session}
    (h : lookupSess ss sid = some s) : (sid, s) ∈ ss := by
  induction ss with
  | nil => simp [lookupSess] at h
  | cons p rest ih =>
    obtain ⟨k, s₀⟩ := p
    by_cases hk : k = sid
    · subst hk
      rw [lookupSess, if_pos rfl] at h
      injection h with h
      subst h
      exact List.mem_cons_self _ _
    · simp only [lookupSess, if_neg hk] at h
      exact List.mem_cons_of_mem _ (ih h)

theorem lookupSess_eq_some_of_mem {ss : Sessions} {sid : Nat} {s : Session}
    (hnd : keysNodup ss) (h : (sid, s) ∈ ss) : lookupSess ss sid = some s := by
  induction ss with
  | nil => simp at h
  | cons p rest ih =>
    obtain ⟨k, s₀⟩ := p
    rcases List.mem_cons.mp h with heq | hmem
    · obtain ⟨rfl, rfl⟩ := Prod.mk.injEq .. ▸ heq
      simp [lookupSess]
    · have hk : k ≠ sid := by
        rintro rfl
        exact (List.nodup_cons.mp hnd).1
          (List.mem_map.mpr ⟨(k, s), hmem, rfl⟩)
      simp only [lookupSess, if_neg hk]
      exact ih (List.nodup_cons.mp hnd).2 hmem

theorem map_fst_setSess (ss : Sessions) (sid : Nat) (v : Session) :
    (setSess ss sid v).map Prod.fst = ss.map Prod.fst := by
  induction ss with
  | nil => rfl
  | cons p rest ih =>
    obtain ⟨k, s₀⟩ := p
    by_cases hk : k = sid <;> simp [setSess, hk, ih]

theorem keysNodup_setSess {ss : Sessions} (sid : Nat) (v : Session)
    (hnd : keysNodup ss) : keysNodup (setSess ss sid v) := by
  unfold keysNodup
  rw [map_fst_setSess]
  exact hnd

theorem lookupSess_setSess_self {ss : Sessions} {sid : Nat} {s₀ : Session}
    (h : lookupSess ss sid = some s₀) (v : Session) :
    lookupSess (setSess ss sid v) sid = some v := by
  induction ss with
  | nil => simp [lookupSess] at h
  | cons p rest ih =>
    obtain ⟨k, s⟩ := p
    by_cases hk : k = sid
    · subst hk; simp [lookupSess, setSess]
    · simp only [lookupSess, if_neg hk] at h
      simp [lookupSess, setSess, hk, ih h]

theorem setSess_setSess (ss : Sessions) (sid : Nat) (v w : Session) :
    setSess (setSess ss sid v) sid w = setSess ss sid w := by
  induction ss with
  | nil => rfl
  | cons p rest ih =>
    obtain ⟨k, s⟩ := p
    by_cases hk : k = sid <;> simp [setSess, hk, ih]

theorem lookupSess_eraseSess_ne (ss : Sessions) {sid x : Nat} (h : x ≠ sid) :
    lookupSess (eraseSess ss sid) x = lookupSess ss x := by
  induction ss with
  | nil => rfl
  | cons p rest ih =>
    obtain ⟨k, s⟩ := p
    by_cases hk : k = sid
    · subst hk
      rw [eraseSess, if_pos rfl, lookupSess, if_neg fun hh => h hh.symm]
    · simp [eraseSess, lookupSess, hk, ih]

theorem map_fst_eraseSess_sublist (ss : Sessions) (sid : Nat) :
    ((eraseSess ss sid).map Prod.fst).Sublist (ss.map Prod.fst) := by
  induction ss with
  | nil => simp [eraseSess]
  | cons p rest ih =>
    obtain ⟨k, s⟩ := p
    by_cases hk : k = sid
    · rw [eraseSess, if_pos hk, List.map_cons]
      exact List.sublist_cons_self _ _
    · rw [eraseSess, if_neg hk, List.map_cons, List.map_cons]
      exact ih.cons₂ k

theorem keysNodup_eraseSess {ss : Sessions} (sid : Nat)
    (hnd : keysNodup ss) : keysNodup (eraseSess ss sid) :=
  (map_fst_eraseSess_sublist ss sid).nodup hnd

theorem lookupSess_eraseSess_self {ss : Sessions} (sid : Nat)
    (hnd : keysNodup ss) : lookupSess (eraseSess ss sid) sid = none := by
  induction ss with
  | nil => rfl
  | cons p rest ih =>
    obtain ⟨k, s⟩ := p
    by_cases hk : k = sid
    · subst hk
      rw [eraseSess, if_pos rfl, (lookupSess_eq_none_iff rest k).mpr]
      exact (List.nodup_cons.mp hnd).1
    · rw [eraseSess, if_neg hk, lookupSess, if_neg hk]
      exact ih (List.nodup_cons.mp hnd).2

/-! ## Branch characterizations of `server.py`'s `datagram_received` -/

namespace Srv

theorem datagramReceived_hello_new (st : SrvState) (pkt : Pkt) (addr : Nat)
    (now : Int) (habs : lookupSess st.sessions pkt.session_id = none)
    (hcmd : pkt.command = CMD_HELLO) :
    datagramReceived st (some pkt) addr now =
      (⟨(pkt.session_id, ⟨0, addr, now⟩) :: st.sessions,
        st.server_seq + 1, max st.server_clock pkt.clock + 1⟩,
       [⟨CMD_HELLO, st.server_seq, pkt.session_id,
          max st.server_clock pkt.clock + 1, now, addr⟩],
       [Rec.created pkt.session_id pkt.seq]) := by
  simp [datagramReceived, habs, hcmd]

theorem datagramReceived_inorder (st : SrvState) (pkt : Pkt) (addr : Nat)
    (now : Int) (sess : Session)
    (hfound : lookupSess st.sessions pkt.session_id = some sess)
    (hcmd : pkt.command = CMD_DATA) (h : pkt.seq = sess.expected) :
    datagramReceived st (some pkt) addr now =
      (⟨setSess (setSess st.sessions pkt.session_id
            ⟨sess.expected, sess.addr, now⟩) pkt.session_id
            ⟨sess.expected + 1, sess.addr, now⟩,
        st.server_seq + 1, max st.server_clock pkt.clock + 1⟩,
       [⟨CMD_ALIVE, st.server_seq, pkt.session_id,
          max st.server_clock pkt.clock + 1, now, addr⟩],
       [Rec.payloadLine pkt.session_id pkt.seq pkt.payload]) := by
  simp [datagramReceived, hfound, hcmd, h, CMD_DATA, CMD_HELLO]

theorem datagramReceived_duplicate (st : SrvState) (pkt : Pkt) (addr : Nat)
    (now : Int) (sess : Session)
    (hfound : lookupSess st.sessions pkt.session_id = some sess)
    (hcmd : pkt.command = CMD_DATA)
    (h : (pkt.seq : Int) = (sess.expected : Int) - 1) :
    datagramReceived st (some pkt) addr now =
      (⟨setSess st.sessions pkt.session_id ⟨sess.expected, sess.addr, now⟩,
        st.server_seq + 1, max st.server_clock pkt.clock + 1⟩,
       [⟨CMD_ALIVE, st.server_seq, pkt.session_id,
          max st.server_clock pkt.clock + 1, now, addr⟩],
       [Rec.duplicate pkt.session_id pkt.seq]) := by
  have hne : pkt.seq ≠ sess.expected := by omega
  simp [datagramReceived, hfound, hcmd, hne, h, CMD_DATA, CMD_HELLO]

theorem datagramReceived_gap (st : SrvState) (pkt : Pkt) (addr : Nat)
    (now : Int) (sess : Session)
    (hfound : lookupSess st.sessions pkt.session_id = some sess)
    (hcmd : pkt.command = CMD_DATA) (h : pkt.seq > sess.expected) :
    datagramReceived st (some pkt) addr now =
      (⟨setSess (setSess st.sessions pkt.session_id
            ⟨sess.expected, sess.addr, now⟩) pkt.session_id
            ⟨pkt.seq + 1, sess.addr, now⟩,
        st.server_seq + 1, max st.server_clock pkt.clock + 1⟩,
       [⟨CMD_ALIVE, st.server_seq, pkt.session_id,
          max st.server_clock pkt.clock + 1, now, addr⟩],
       (List.range' sess.expected (pkt.seq - sess.expected)).map
           (Rec.lost pkt.session_id) ++
         [Rec.payloadLine pkt.session_id pkt.seq pkt.payload]) := by
  have hne : pkt.seq ≠ sess.expected := by omega
  have hne' : ¬ ((pkt.seq : Int) = (sess.expected : Int) - 1) := by omega
  simp [datagramReceived, hfound, hcmd, hne, hne', h, CMD_DATA, CMD_HELLO]

theorem datagramReceived_stale (st : SrvState) (pkt : Pkt) (addr : Nat)
    (now : Int) (sess : Session)
    (hfound : lookupSess st.sessions pkt.session_id = some sess)
    (hcmd : pkt.command = CMD_DATA)
    (h : (pkt.seq : Int) < (sess.expected : Int) - 1) :
    datagramReceived st (some pkt) addr now =
      (⟨eraseSess (setSess st.sessions pkt.session_id
            ⟨sess.expected, sess.addr, now⟩) pkt.session_id,
        st.server_seq + 1, max st.server_clock pkt.clock + 1⟩,
       [⟨CMD_GOODBYE, st.server_seq, pkt.session_id,
          max st.server_clock pkt.clock + 1, now, addr⟩],
       [Rec.protoErrorOld pkt.session_id pkt.seq sess.expected]) := by
  have hne : pkt.seq ≠ sess.expected := by omega
  have hne' : ¬ ((pkt.seq : Int) = (sess.expected : Int) - 1) := by omega
  have hne'' : ¬ (pkt.seq > sess.expected) := by omega
  simp [datagramReceived, hfound, hcmd, hne, hne', hne'', CMD_DATA, CMD_HELLO]

theorem datagramReceived_goodbye (st : SrvState) (pkt : Pkt) (addr : Nat)
    (now : Int) (sess : Session)
    (hfound : lookupSess st.sessions pkt.session_id = some sess)
    (hcmd : pkt.command = CMD_GOODBYE) :
    datagramReceived st (some pkt) addr now =
      (⟨eraseSess (setSess st.sessions pkt.session_id
            ⟨sess.expected, sess.addr, now⟩) pkt.session_id,
        st.server_seq + 1, max st.server_clock pkt.clock + 1⟩,
       [⟨CMD_GOODBYE, st.server_seq, pkt.session_id,
          max st.server_clock pkt.clock + 1, now, addr⟩],
       [Rec.goodbyeFromClient pkt.session_id pkt.seq,
        Rec.sessionClosed pkt.session_id]) := by
  simp [datagramReceived, hfound, hcmd, CMD_GOODBYE, CMD_DATA, CMD_HELLO]

theorem datagramReceived_othercmd (st : SrvState) (pkt : Pkt) (addr : Nat)
    (now : Int) (sess : Session)
    (hfound : lookupSess st.sessions pkt.session_id = some sess)
    (hdata : pkt.command ≠ CMD_DATA) (hgb : pkt.command ≠ CMD_GOODBYE) :
    datagramReceived st (some pkt) addr now =
      (⟨eraseSess (setSess st.sessions pkt.session_id
            ⟨sess.expected, sess.addr, now⟩) pkt.session_id,
        st.server_seq + 1, max st.server_clock pkt.clock + 1⟩,
       [⟨CMD_GOODBYE, st.server_seq, pkt.session_id,
          max st.server_clock pkt.clock + 1, now, addr⟩],
       [Rec.protoErrorCmd pkt.session_id pkt.command]) := by
  simp [datagramReceived, hfound, hdata, hgb]

/-! ### Characterization of one `check_timeouts` sweep -/

theorem sweepGo_spec (now : Int) (sids : List Nat) :
    ∀ st : SrvState, keysNodup st.sessions →
      (∀ sid ∈ sids, (lookupSess st.sessions sid).isSome) →
      sids.Nodup →
      (sweepGo st now sids).2.2 = sids.map Rec.timeoutClosed ∧
      (∀ x, lookupSess (sweepGo st now sids).1.sessions x =
          if x ∈ sids then none else lookupSess st.sessions x) ∧
      (sweepGo st now sids).2.1.map (fun o => (o.command, o.session_id, o.addr)) =
        sids.map fun sid => (CMD_GOODBYE, sid, addrOf st sid) := by
  induction sids with
  | nil => intro st _ _ _; simp [sweepGo]
  | cons sid rest ih =>
    intro st hnd hsome hnodup
    obtain ⟨sess, hsess⟩ :=
      Option.isSome_iff_exists.mp (hsome sid (List.mem_cons_self _ _))
    have hsid_rest : sid ∉ rest := (List.nodup_cons.mp hnodup).1
    set st' : SrvState :=
      { st with sessions := eraseSess st.sessions sid,
                server_seq := st.server_seq + 1 } with hst'
    have hnd' : keysNodup st'.sessions := keysNodup_eraseSess sid hnd
    have hlook' : ∀ x, x ≠ sid →
        lookupSess st'.sessions x = lookupSess st.sessions x := by
      intro x hx
      exact lookupSess_eraseSess_ne st.sessions hx
    have hsome' : ∀ x ∈ rest, (lookupSess st'.sessions x).isSome := by
      intro x hx
      rw [hlook' x (fun hxe => hsid_rest (hxe ▸ hx))]
      exact hsome x (List.mem_cons_of_mem _ hx)
    obtain ⟨ihrec, ihlook, ihout⟩ :=
      ih st' hnd' hsome' (List.nodup_cons.mp hnodup).2
    have hstep : sweepGo st now (sid :: rest) =
        ((sweepGo st' now rest).1,
         ⟨CMD_GOODBYE, st.server_seq, sid, st.server_clock, now, sess.addr⟩ ::
           (sweepGo st' now rest).2.1,
         Rec.timeoutClosed sid :: (sweepGo st' now rest).2.2) := by
      rw [sweepGo, hsess]
    refine ⟨?_, ?_, ?_⟩
    · rw [hstep]
      simp [ihrec]
    · intro x
      rw [hstep]
      by_cases hx : x = sid
      · subst hx
        rw [ihlook x]
        by_cases hxr : x ∈ rest
        · simp [hxr]
        · simp [hxr, lookupSess_eraseSess_self x hnd]
      · rw [ihlook x, hlook' x hx]
        simp [hx]
    · rw [hstep]
      simp only [List.map_cons]
      rw [ihout]
      congr 1
      · simp [addrOf, hsess]
      · refine List.map_congr_left fun x hx => ?_
        have hxs : x ≠ sid := fun hxe => hsid_rest (hxe ▸ hx)
        simp [addrOf, hlook' x hxs]

end Srv

/-! ## Invariant of the client send-trace machine -/

namespace ClientFSA

theorem allData_append_data {l : List Nat} (h : allData l = true) :
    allData (l ++ [Client.DATA]) = true := by
  rw [allData, List.all_append]
  rw [allData] at h
  simp [h]

theorem amendedTail_of_allData {l : List Nat} (h : allData l = true) :
    amendedTail l = true := by
  induction l with
  | nil => rfl
  | cons c rest ih =>
    simp only [allData, List.all_cons, Bool.and_eq_true] at h
    have hc : c = Client.DATA := by simpa using h.1
    simp [amendedTail, hc, ih h.2]

theorem amendedTail_append_goodbye {l : List Nat} (h : allData l = true) :
    amendedTail (l ++ [Client.GOODBYE]) = true := by
  induction l with
  | nil => simp [amendedTail, allData, Client.GOODBYE, Client.DATA]
  | cons c rest ih =>
    simp only [allData, List.all_cons, Bool.and_eq_true] at h
    have hc : c = Client.DATA := by simpa using h.1
    simp [amendedTail, hc, ih h.2]

theorem amendedTail_append_data {l : List Nat} (h : amendedTail l = true) :
    amendedTail (l ++ [Client.DATA]) = true := by
  induction l with
  | nil => simp [amendedTail, allData, Client.DATA]
  | cons c rest ih =>
    rw [amendedTail] at h
    rw [List.cons_append, amendedTail]
    by_cases hc : c = Client.DATA
    · rw [if_pos hc] at h ⊢
      exact ih h
    · rw [if_neg hc] at h ⊢
      simp only [Bool.and_eq_true, decide_eq_true_eq] at h ⊢
      exact ⟨h.1, allData_append_data h.2⟩

theorem init_Inv (interactive : Bool) : Inv (init interactive) :=
  ⟨[], rfl, Or.inl rfl⟩

theorem step_Inv {m : M} (e : Ev) (h : Inv m) : Inv (step m e) := by
  obtain ⟨st, parked, inter, sent⟩ := m
  obtain ⟨rest, hsent, hcase⟩ := h
  simp only at hsent
  subst hsent
  have hAT : amendedTail rest = true := by
    rcases hcase with hAD | ⟨hAT, _⟩
    · exact amendedTail_of_allData hAD
    · exact hAT
  cases e with
  | pkt c =>
    cases st <;> simp only [step] <;>
      [exact ⟨rest, rfl, hcase⟩;
       split <;> exact ⟨rest, rfl, by
          rcases hcase with hAD | ⟨h₁, h₂⟩
          · exact Or.inl hAD
          · simp at h₂⟩;
       split <;> exact ⟨rest, rfl, by
          rcases hcase with hAD | ⟨h₁, h₂⟩
          · exact Or.inl hAD
          · simp at h₂⟩;
       split <;> exact ⟨rest, rfl, by
          rcases hcase with hAD | ⟨h₁, h₂⟩
          · exact Or.inl hAD
          · simp at h₂⟩;
       split <;> exact ⟨rest, rfl, Or.inr ⟨hAT, by simp⟩⟩;
       exact ⟨rest, rfl, hcase⟩]
  | timer =>
    cases st <;> simp only [step]
    · exact ⟨rest, rfl, hcase⟩
    · -- HELLO_WAIT timeout: GOODBYE, → CLOSING
      have hAD : allData rest = true := by
        rcases hcase with hAD | ⟨_, h₂⟩
        · exact hAD
        · simp at h₂
      exact ⟨rest ++ [Client.GOODBYE], by simp,
        Or.inr ⟨amendedTail_append_goodbye hAD, Or.inl rfl⟩⟩
    · exact ⟨rest, rfl, hcase⟩
    · -- READY_TIMER timeout: GOODBYE, → CLOSING
      have hAD : allData rest = true := by
        rcases hcase with hAD | ⟨_, h₂⟩
        · exact hAD
        · simp at h₂
      exact ⟨rest ++ [Client.GOODBYE], by simp,
        Or.inr ⟨amendedTail_append_goodbye hAD, Or.inl rfl⟩⟩
    · -- CLOSING timeout: → CLOSED
      exact ⟨rest, rfl, Or.inr ⟨hAT, by simp⟩⟩
    · exact ⟨rest, rfl, hcase⟩
  | input k =>
    cases st <;> simp only [step]
    · exact ⟨rest, rfl, hcase⟩
    · exact ⟨rest, rfl, hcase⟩
    · -- READY input
      have hAD : allData rest = true := by
        rcases hcase with hAD | ⟨_, h₂⟩
        · exact hAD
        · simp at h₂
      split
      · exact ⟨rest ++ [Client.GOODBYE], by simp,
          Or.inr ⟨amendedTail_append_goodbye hAD, Or.inl rfl⟩⟩
      · exact ⟨rest ++ [Client.DATA], by simp,
          Or.inl (allData_append_data hAD)⟩
    · -- READY_TIMER input
      have hAD : allData rest = true := by
        rcases hcase with hAD | ⟨_, h₂⟩
        · exact hAD
        · simp at h₂
      split
      · exact ⟨rest ++ [Client.GOODBYE], by simp,
          Or.inr ⟨amendedTail_append_goodbye hAD, Or.inl rfl⟩⟩
      · exact ⟨rest ++ [Client.DATA], by simp,
          Or.inl (allData_append_data hAD)⟩
    · exact ⟨rest, rfl, hcase⟩
    · exact ⟨rest, rfl, hcase⟩
  | dangling k =>
    cases st <;> simp only [step]
    case closed => exact ⟨rest, rfl, hcase⟩
    all_goals
      by_cases hp : parked = 0
    all_goals
      first
      | (rw [if_pos hp]
         exact ⟨rest, rfl, hcase⟩)
      | (rw [if_neg hp]
         by_cases hk : isClose inter k = true
         · rw [if_pos hk]
           exact ⟨rest, rfl, Or.inr ⟨hAT, Or.inl rfl⟩⟩
         · rw [if_neg hk]
           rcases hcase with hAD | ⟨h₁, h₂⟩
           · exact ⟨rest ++ [Client.DATA], by simp,
               Or.inl (allData_append_data hAD)⟩
           · exact ⟨rest ++ [Client.DATA], by simp,
               Or.inr ⟨amendedTail_append_data h₁, h₂⟩⟩)

theorem run_Inv {m : M} (evs : List Ev) (h : Inv m) : Inv (run m evs) := by
  induction evs generalizing m with
  | nil => exact h
  | cons e rest ih => exact ih (step_Inv e h)

end ClientFSA

/-! ## The claims -/

/-- C4, counterexample: `UAPMessage.unpack` accepts a well-formed
24-byte datagram, so "byte strings shorter than the 26-byte header are
rejected" and "the header occupies exactly 26 bytes" are both false —
the `!H B B I I I d` header is 24 bytes. -/
theorem claim4_counterexample :
    ([196, 97, 1, 0, 0, 0, 0, 0, 0, 0, 0, 0,
      0, 0, 0, 0, 0, 0, 0, 0, 0, 0, 0, 0] : List Nat).length < 26 ∧
    (UAPMessage.unpack [196, 97, 1, 0, 0, 0, 0, 0, 0, 0, 0, 0,
      0, 0, 0, 0, 0, 0, 0, 0, 0, 0, 0, 0]).isSome = true := by
  decide

/-- C4 (amended): `UAPMessage.unpack` returns reject (`none`) exactly
for inputs shorter than the 24-byte header or whose magic differs from
0xC461 or whose version differs from 1; the header occupies 24 bytes in
`message.py` and 28 bytes in `client.py`; and a rejected datagram leaves
the server state unchanged and sends nothing. -/
theorem claim4_amended_reject_characterization :
    (∀ packet : List Nat,
      UAPMessage.unpack packet = none ↔
        packet.length < UAPMessage.HEADER_SIZE ∨
          beToNat (packet.take 2) ≠ UAPMessage.MAGIC ∨
          beToNat ((packet.drop 2).take 1) ≠ UAPMessage.VERSION) ∧
    UAPMessage.HEADER_SIZE = 24 ∧ Client.HEADER_SIZE = 28 ∧
    (∀ (st : SrvState) (addr : Nat) (now : Int),
      (Srv.datagramReceived st none addr now).1 = st ∧
      (Srv.datagramReceived st none addr now).2.1 = []) :=
  ⟨UAPMessage.unpack_eq_none_iff, rfl, rfl, fun _ _ _ => ⟨rfl, rfl⟩⟩

/-- C5, counterexample: two successive HELLO datagrams (remote clocks 7
and 9) are answered by `server_uap.py` with packets both stamped with
logical clock 0 — the stamp on the later packet is not strictly greater
than on the earlier one. -/
theorem claim5_counterexample :
    ((Uap.datagramReceived SrvState.init (some ⟨0, 0, 1, 7, 0, []⟩) 5 0).2.1.map
        Out.clock = [0]) ∧
    ((Uap.datagramReceived
        (Uap.datagramReceived SrvState.init (some ⟨0, 0, 1, 7, 0, []⟩) 5 0).1
        (some ⟨0, 0, 2, 9, 0, []⟩) 6 0).2.1.map Out.clock = [0]) ∧
    ¬ (0 : Nat) < 0 := by
  decide

/-- C5 (amended): `server_uap.py` never advances its logical clock —
`datagram_received` leaves `server_clock` unchanged on every input, and
every packet it sends is stamped with the current (hence, from the
initial state, forever 0) `server_clock`; the stamps on successive
outgoing packets are therefore equal, not strictly increasing. -/
theorem claim5_amended_uap_clock_constant (st : SrvState) (pkt? : Option Pkt)
    (addr : Nat) (now : Int) :
    (Uap.datagramReceived st pkt? addr now).1.server_clock = st.server_clock ∧
    ((Uap.datagramReceived st pkt? addr now).2.1.map Out.clock).all
      (fun c => c == st.server_clock) = true := by
  cases pkt? with
  | none => simp [Uap.datagramReceived]
  | some pkt =>
    rw [Uap.datagramReceived]
    rcases hl : lookupSess st.sessions pkt.session_id with _ | sess <;>
      simp only [hl] <;> split_ifs <;> simp

/-- C7, counterexample: the `UAPMessage` codec packs the logical clock
as a 32-bit field, so encoding a packet whose clock is `2 ^ 32` raises
(`pack` rejects) and the decode-encode round trip fails for it. -/
theorem claim7_counterexample :
    (UAPMessage.pack ⟨0, 0, 0, 2 ^ 32, 0, []⟩).bind UAPMessage.unpack ≠
      some ⟨0, 0, 0, 2 ^ 32, 0, []⟩ := by
  decide

/-- C7 (amended): decoding the encoding of any command in
{HELLO, DATA, ALIVE, GOODBYE}, any 32-bit seq and session id, any clock
value **below `2 ^ 32`** (`message.py` packs the clock as a 32-bit `I`;
`client.py` supports the full 64 bits), any 64-bit timestamp and any
payload yields back exactly those field values and that payload, in both
codecs. -/
theorem claim7_amended_roundtrip (c s id k t : Nat) (pl : List Nat)
    (hc : c ≤ 3) (hs : s < 2 ^ 32) (hid : id < 2 ^ 32) (ht : t < 2 ^ 64) :
    (k < 2 ^ 32 →
      (UAPMessage.pack ⟨c, s, id, k, t, pl⟩).bind UAPMessage.unpack =
        some ⟨c, s, id, k, t, pl⟩) ∧
    (k < 2 ^ 64 →
      (Client.build_packet c s id k t pl).bind Client.parse_packet =
        some (⟨Client.MAGIC, Client.VERSION, c, s, id, k, t⟩, pl)) := by
  constructor
  · intro hk
    exact UAPMessage.unpack_pack (show c < 256 by omega) hs hid hk ht
  · intro hk
    exact Client.parse_build_packet pl (show c < 256 by omega) hs hid hk ht

/-- C7 witness: the round trip evaluated for a concrete DATA packet in
both codecs. -/
theorem claim7_witness :
    (UAPMessage.pack ⟨1, 2, 3, 4, 5, [10, 11]⟩).bind UAPMessage.unpack =
      some ⟨1, 2, 3, 4, 5, [10, 11]⟩ ∧
    (Client.build_packet 1 2 3 4 5 [10, 11]).bind Client.parse_packet =
      some (⟨Client.MAGIC, Client.VERSION, 1, 2, 3, 4, 5⟩, [10, 11]) :=
  ⟨(claim7_amended_roundtrip 1 2 3 4 5 [10, 11] (by decide) (by decide)
      (by decide) (by decide)).1 (by decide),
   (claim7_amended_roundtrip 1 2 3 4 5 [10, 11] (by decide) (by decide)
      (by decide) (by decide)).2 (by decide)⟩

/-- C8: the claim's accounting half is what `add_latency` does, but the
report on entering CLOSED divides `TOTAL_LATENCY` by
`NUMBER_OF_SERVER_MESSAGE` unguarded — a run that received zero packets
(for example the HELLO timeout against a non-existent server) raises
`ZeroDivisionError` instead of reporting, so `print_one_way_latency`
evaluated at the failing input (`total = 0`, `count = 0`) yields `none`. -/
theorem claim8_zero_division :
    Client.add_latency 0 0 5 2 = (3, 1) ∧
    Client.print_one_way_latency 0 0 = none := by
  constructor
  · decide
  · rfl

/-- C6, counterexample: `server_uap.py` does not refresh `last_seen` on
packets for an existing session — after an in-order DATA processed at
time 5 the session's `last_seen` is still its creation value 0, so the
sweeper evicts sessions by age since creation, not since the last valid
packet.  (In `server.py`, which does refresh, `INACTIVITY_LIMIT` is 5,
not the claimed default 10.) -/
theorem claim6_counterexample :
    lookupSess (Uap.datagramReceived ⟨[(5, ⟨0, 9, 0⟩)], 0, 0⟩
        (some ⟨1, 0, 5, 0, 0, [104]⟩) 9 5).1.sessions 5 = some ⟨1, 9, 0⟩ ∧
    ¬ (0 : Int) = 5 ∧
    Uap.INACTIVITY_LIMIT = 10 ∧ Srv.INACTIVITY_LIMIT = 5 := by
  decide

/-- C6 (amended): in `server.py`, every packet on an existing session
sets that session's `last_seen` to now before dispatch (whenever the
session survives the packet its stored `last_seen` equals now), and each
1-second sweep emits one timeout-closed record and one GOODBYE to the
recorded address for precisely the sessions with
`now - last_seen > INACTIVITY_LIMIT`, destroying exactly those — but the
limit is 5 seconds there (and 10 in `server_uap.py`, which never
refreshes `last_seen`). -/
theorem claim6_amended_last_seen_sweeper (st : SrvState)
    (hnd : keysNodup st.sessions) :
    (∀ (pkt : Pkt) (addr : Nat) (now : Int) (sess sess' : Session),
      lookupSess st.sessions pkt.session_id = some sess →
      lookupSess (Srv.datagramReceived st (some pkt) addr now).1.sessions
          pkt.session_id = some sess' →
      sess'.last_seen = now) ∧
    (∀ now : Int, (Srv.check_timeouts st now).2.2 =
        ((st.sessions.filter (Srv.expiredP now)).map Prod.fst).map
          Rec.timeoutClosed) ∧
    (∀ (now : Int) (x : Nat) (s : Session),
      lookupSess st.sessions x = some s →
      lookupSess (Srv.check_timeouts st now).1.sessions x =
        if Srv.expiredP now (x, s) then none else some s) ∧
    (∀ now : Int, (Srv.check_timeouts st now).2.1.map
          (fun o => (o.command, o.session_id, o.addr)) =
        ((st.sessions.filter (Srv.expiredP now)).map Prod.fst).map
          (fun sid => (CMD_GOODBYE, sid, Srv.addrOf st sid))) ∧
    Srv.INACTIVITY_LIMIT = 5 ∧ Uap.INACTIVITY_LIMIT = 10 := by
  have hspec : ∀ now : Int,
      ((Srv.sweepGo st now
          ((st.sessions.filter (Srv.expiredP now)).map Prod.fst)).2.2 =
        ((st.sessions.filter (Srv.expiredP now)).map Prod.fst).map
          Rec.timeoutClosed) ∧
      (∀ x, lookupSess (Srv.sweepGo st now
          ((st.sessions.filter (Srv.expiredP now)).map Prod.fst)).1.sessions
            x =
          if x ∈ (st.sessions.filter (Srv.expiredP now)).map Prod.fst then
            none
          else lookupSess st.sessions x) ∧
      (Srv.sweepGo st now
          ((st.sessions.filter (Srv.expiredP now)).map Prod.fst)).2.1.map
          (fun o => (o.command, o.session_id, o.addr)) =
        ((st.sessions.filter (Srv.expiredP now)).map Prod.fst).map
          fun sid => (CMD_GOODBYE, sid, Srv.addrOf st sid) := by
    intro now
    refine Srv.sweepGo_spec now _ st hnd ?_ ?_
    · intro sid hsid
      refine lookupSess_isSome_of_mem_keys ?_
      exact List.map_subset Prod.fst
        (List.filter_sublist st.sessions).subset hsid
    · exact ((List.filter_sublist st.sessions).map Prod.fst).nodup hnd
  refine ⟨?_, ?_, ?_, ?_, rfl, rfl⟩
  · intro pkt addr now sess sess' hfound hres
    by_cases hdata : pkt.command = CMD_DATA
    · rcases Nat.lt_trichotomy pkt.seq sess.expected with hlt | heq | hgt
      · by_cases hdup : (pkt.seq : Int) = (sess.expected : Int) - 1
        · rw [Srv.datagramReceived_duplicate st pkt addr now sess hfound
            hdata hdup, lookupSess_setSess_self hfound] at hres
          injection hres with hres
          rw [← hres]
        · have hstale : (pkt.seq : Int) < (sess.expected : Int) - 1 := by
            omega
          rw [Srv.datagramReceived_stale st pkt addr now sess hfound hdata
            hstale] at hres
          rw [lookupSess_eraseSess_self _
            (keysNodup_setSess _ _ hnd)] at hres
          exact absurd hres (by simp)
      · rw [Srv.datagramReceived_inorder st pkt addr now sess hfound hdata
          heq, setSess_setSess,
          lookupSess_setSess_self hfound] at hres
        injection hres with hres
        rw [← hres]
      · rw [Srv.datagramReceived_gap st pkt addr now sess hfound hdata hgt,
          setSess_setSess, lookupSess_setSess_self hfound] at hres
        injection hres with hres
        rw [← hres]
    · by_cases hgb : pkt.command = CMD_GOODBYE
      · rw [Srv.datagramReceived_goodbye st pkt addr now sess hfound hgb]
          at hres
        rw [lookupSess_eraseSess_self _ (keysNodup_setSess _ _ hnd)] at hres
        exact absurd hres (by simp)
      · rw [Srv.datagramReceived_othercmd st pkt addr now sess hfound hdata
          hgb] at hres
        rw [lookupSess_eraseSess_self _ (keysNodup_setSess _ _ hnd)] at hres
        exact absurd hres (by simp)
  · intro now
    exact (hspec now).1
  · intro now x s hfound
    rw [Srv.check_timeouts, (hspec now).2.1 x]
    by_cases hx : x ∈ (st.sessions.filter (Srv.expiredP now)).map Prod.fst
    · rw [if_pos hx]
      obtain ⟨⟨x', s'⟩, hmem, hfst⟩ := List.mem_map.mp hx
      obtain rfl : x' = x := hfst
      have hmem' := List.mem_of_mem_filter hmem
      have hs' : s' = s := by
        have := lookupSess_eq_some_of_mem hnd hmem'
        rw [hfound] at this
        injection this with this
        exact this.symm
      subst hs'
      rw [if_pos (List.of_mem_filter hmem)]
    · rw [if_neg hx, hfound]
      by_cases hexp : Srv.expiredP now (x, s) = true
      · exact absurd (List.mem_map.mpr
          ⟨(x, s), List.mem_filter.mpr
            ⟨mem_of_lookupSess_eq_some hfound, hexp⟩, rfl⟩) hx
      · rw [if_neg hexp]
  · intro now
    exact (hspec now).2.2

/-- C6 witness: the amended claim evaluated on a table with two sessions
(`last_seen` 0 and 100): an in-order DATA at time 3 leaves `last_seen`
= 3, and a sweep at time 10 closes exactly the stale session 1, sending
it a GOODBYE at its recorded address 7. -/
theorem claim6_witness :
    lookupSess (Srv.datagramReceived
        ⟨[(1, ⟨0, 7, 0⟩), (2, ⟨0, 8, 100⟩)], 0, 0⟩
        (some ⟨1, 0, 1, 0, 0, [104]⟩) 7 3).1.sessions 1 = some ⟨1, 7, 3⟩ ∧
    (Srv.check_timeouts ⟨[(1, ⟨0, 7, 0⟩), (2, ⟨0, 8, 100⟩)], 0, 0⟩
        10).2.2 = [Rec.timeoutClosed 1] ∧
    lookupSess (Srv.check_timeouts
        ⟨[(1, ⟨0, 7, 0⟩), (2, ⟨0, 8, 100⟩)], 0, 0⟩ 10).1.sessions 1 =
      none ∧
    lookupSess (Srv.check_timeouts
        ⟨[(1, ⟨0, 7, 0⟩), (2, ⟨0, 8, 100⟩)], 0, 0⟩ 10).1.sessions 2 =
      some ⟨0, 8, 100⟩ ∧
    (Srv.check_timeouts ⟨[(1, ⟨0, 7, 0⟩), (2, ⟨0, 8, 100⟩)], 0, 0⟩
        10).2.1.map (fun o => (o.command, o.session_id, o.addr)) =
      [(CMD_GOODBYE, 1, 7)] := by
  have h := claim6_amended_last_seen_sweeper
    ⟨[(1, ⟨0, 7, 0⟩), (2, ⟨0, 8, 100⟩)], 0, 0⟩ (by unfold keysNodup; decide)
  refine ⟨?_, ?_, ?_, ?_, ?_⟩
  · have hl : lookupSess (Srv.datagramReceived
        ⟨[(1, ⟨0, 7, 0⟩), (2, ⟨0, 8, 100⟩)], 0, 0⟩
        (some ⟨1, 0, 1, 0, 0, [104]⟩) 7 3).1.sessions 1 =
        some ⟨1, 7, 3⟩ := by decide
    have _hls := h.1 ⟨1, 0, 1, 0, 0, [104]⟩ 7 3 ⟨0, 7, 0⟩ ⟨1, 7, 3⟩
      (by decide) hl
    exact hl
  · have := h.2.1 10
    simpa using this
  · have := h.2.2.1 10 1 ⟨0, 7, 0⟩ (by decide)
    simpa using this
  · have := h.2.2.1 10 2 ⟨0, 8, 100⟩ (by decide)
    simpa using this
  · have := h.2.2.2.1 10
    simpa [Srv.addrOf] using this

/-- C9, counterexample: the event trace "HELLO reply received; one input
line sent as DATA; the READY_TIMER deadline fires (GOODBYE, with the
input read left pending); the pending read completes with a text line"
makes the client send HELLO, DATA, GOODBYE, DATA — a DATA after the
final GOODBYE, outside `HELLO · DATA* · GOODBYE?`. -/
theorem claim9_counterexample :
    (ClientFSA.run (ClientFSA.init true)
        [ClientFSA.Ev.pkt Client.HELLO,
         ClientFSA.Ev.input ClientFSA.Kind.text,
         ClientFSA.Ev.timer,
         ClientFSA.Ev.dangling ClientFSA.Kind.text]).sent =
      [Client.HELLO, Client.DATA, Client.GOODBYE, Client.DATA] ∧
    ClientFSA.claimLang
      [Client.HELLO, Client.DATA, Client.GOODBYE, Client.DATA] = false := by
  decide

/-- C9 (amended): for every client session and every interleaving of
input lines, received datagrams, timer expiries and completions of
input reads left pending by `run_ready_timer`, the sequence of sent
packet commands belongs to `HELLO · DATA* · (GOODBYE · DATA*)?` — one
initial HELLO, at most one GOODBYE, and after the GOODBYE only DATA
lines flushed by input reads that were already pending when it was
sent. -/
theorem claim9_amended_language (interactive : Bool)
    (evs : List ClientFSA.Ev) :
    ClientFSA.amendedLang
      (ClientFSA.run (ClientFSA.init interactive) evs).sent = true := by
  obtain ⟨rest, hsent, hcase⟩ :=
    ClientFSA.run_Inv evs (ClientFSA.init_Inv interactive)
  rw [hsent]
  have hAT : ClientFSA.amendedTail rest = true := by
    rcases hcase with h | ⟨h, _⟩
    · exact ClientFSA.amendedTail_of_allData h
    · exact h
  simp [ClientFSA.amendedLang, hAT]

/-- C10: every client receive path reads only the `command`,
`logical_clock` and `timestamp` fields of the parsed header — two
received packets that differ only in `session_id` or `sequence_number`
(or even `magic`/`version`, which `parse_packet` never checks) drive the
state transition, the Lamport clock and the latency accounting
identically. -/
theorem claim10_receive_noninterference (ctx : Client.RecvCtx)
    (h₁ h₂ : Client.Header) (now : Int)
    (hcmd : h₁.command = h₂.command)
    (hclk : h₁.logical_clock = h₂.logical_clock)
    (hts : h₁.timestamp = h₂.timestamp) :
    Client.clientReceive ctx h₁ now = Client.clientReceive ctx h₂ now := by
  obtain ⟨m₁, v₁, c₁, s₁, i₁, k₁, t₁⟩ := h₁
  obtain ⟨m₂, v₂, c₂, s₂, i₂, k₂, t₂⟩ := h₂
  simp only at hcmd hclk hts
  subst hcmd
  subst hclk
  subst hts
  obtain ⟨st, ck, tot, cnt⟩ := ctx
  cases st <;> rfl

/-- C1, counterexample: a HELLO with sequence number 0 from an unknown
session id makes the server create a session whose `expected` counter is
0, not `seq + 1 = 1`. -/
theorem claim1_counterexample :
    lookupSess (Srv.datagramReceived SrvState.init
        (some ⟨0, 0, 5, 7, 2, []⟩) 9 4).1.sessions 5 = some ⟨0, 9, 4⟩ ∧
    ¬ (0 : Nat) = 0 + 1 := by
  decide

/-- C1 (amended): for every HELLO received from a session id absent from
the Session Table, both servers create a session whose expected counter
is **0** (regardless of the packet's sequence number), record the
sender's address, set `last_seen` to now, and reply with a HELLO
carrying the server's current sequence and clock (`server.py` first
advances its clock to `max(local, remote) + 1`; `server_uap.py` leaves
it unchanged). -/
theorem claim1_amended_hello_session (st : SrvState) (pkt : Pkt)
    (addr : Nat) (now : Int)
    (habs : lookupSess st.sessions pkt.session_id = none)
    (hcmd : pkt.command = CMD_HELLO) :
    Srv.datagramReceived st (some pkt) addr now =
      (⟨(pkt.session_id, ⟨0, addr, now⟩) :: st.sessions,
        st.server_seq + 1, max st.server_clock pkt.clock + 1⟩,
       [⟨CMD_HELLO, st.server_seq, pkt.session_id,
          max st.server_clock pkt.clock + 1, now, addr⟩],
       [Rec.created pkt.session_id pkt.seq]) ∧
    Uap.datagramReceived st (some pkt) addr now =
      (⟨(pkt.session_id, ⟨0, addr, now⟩) :: st.sessions,
        st.server_seq + 1, st.server_clock⟩,
       [⟨CMD_HELLO, st.server_seq, pkt.session_id, st.server_clock, now,
         addr⟩],
       [Rec.created pkt.session_id pkt.seq]) :=
  ⟨Srv.datagramReceived_hello_new st pkt addr now habs hcmd,
   by simp [Uap.datagramReceived, habs, hcmd]⟩

/-- C1 witness: the amended claim evaluated on a concrete HELLO from
session id 5 at address 9, time 4, remote clock 7. -/
theorem claim1_witness :
    lookupSess SrvState.init.sessions 5 = none ∧
    Srv.datagramReceived SrvState.init (some ⟨0, 0, 5, 7, 2, []⟩) 9 4 =
      (⟨[(5, ⟨0, 9, 4⟩)], 1, 8⟩, [⟨CMD_HELLO, 0, 5, 8, 4, 9⟩],
       [Rec.created 5 0]) ∧
    Uap.datagramReceived SrvState.init (some ⟨0, 0, 5, 7, 2, []⟩) 9 4 =
      (⟨[(5, ⟨0, 9, 4⟩)], 1, 0⟩, [⟨CMD_HELLO, 0, 5, 0, 4, 9⟩],
       [Rec.created 5 0]) := by
  have h := claim1_amended_hello_session SrvState.init ⟨0, 0, 5, 7, 2, []⟩
    9 4 rfl rfl
  exact ⟨rfl, h.1, h.2⟩

/-- C2, counterexample: in `server_uap.py` a duplicate DATA packet
(`seq = expected - 1`) on an existing session is answered with **zero**
ALIVE packets — the duplicate branch only prints — refuting "exactly one
ALIVE reply is sent when the packet is classified … duplicate". -/
theorem claim2_counterexample :
    (Uap.datagramReceived ⟨[(5, ⟨1, 9, 0⟩)], 0, 0⟩
        (some ⟨1, 0, 5, 0, 0, [104]⟩) 9 3).2.1 = [] ∧
    (Uap.datagramReceived ⟨[(5, ⟨1, 9, 0⟩)], 0, 0⟩
        (some ⟨1, 0, 5, 0, 0, [104]⟩) 9 3).2.2 = [Rec.duplicateBang] := by
  decide

/-- C2 (amended): in `server.py` every DATA on an existing session is
answered with exactly one ALIVE when classified in-order, duplicate or
gap-closing and zero ALIVEs when stale, and a duplicate does not advance
`expected` (the session keeps its counter, with `last_seen` refreshed);
in `server_uap.py` the duplicate case sends no ALIVE at all (and also
does not advance `expected`). -/
theorem claim2_amended_alive_discipline (st : SrvState) (pkt : Pkt)
    (addr : Nat) (now : Int) (sess : Session)
    (hfound : lookupSess st.sessions pkt.session_id = some sess)
    (hcmd : pkt.command = CMD_DATA) :
    ((pkt.seq = sess.expected ∨ (pkt.seq : Int) = (sess.expected : Int) - 1 ∨
        pkt.seq > sess.expected) →
      (Srv.datagramReceived st (some pkt) addr now).2.1.countP
        (fun o => o.command == CMD_ALIVE) = 1) ∧
    ((pkt.seq : Int) < (sess.expected : Int) - 1 →
      (Srv.datagramReceived st (some pkt) addr now).2.1.countP
        (fun o => o.command == CMD_ALIVE) = 0) ∧
    ((pkt.seq : Int) = (sess.expected : Int) - 1 →
      lookupSess (Srv.datagramReceived st (some pkt) addr now).1.sessions
          pkt.session_id = some ⟨sess.expected, sess.addr, now⟩) ∧
    ((pkt.seq : Int) = (sess.expected : Int) - 1 →
      Uap.datagramReceived st (some pkt) addr now =
        (st, [], [Rec.duplicateBang])) := by
  refine ⟨?_, ?_, ?_, ?_⟩
  · rintro (h | h | h)
    · rw [Srv.datagramReceived_inorder st pkt addr now sess hfound hcmd h]
      rfl
    · rw [Srv.datagramReceived_duplicate st pkt addr now sess hfound hcmd h]
      rfl
    · rw [Srv.datagramReceived_gap st pkt addr now sess hfound hcmd h]
      rfl
  · intro h
    rw [Srv.datagramReceived_stale st pkt addr now sess hfound hcmd h]
    rfl
  · intro h
    rw [Srv.datagramReceived_duplicate st pkt addr now sess hfound hcmd h]
    exact lookupSess_setSess_self hfound _
  · intro h
    have hne : pkt.seq ≠ sess.expected := by omega
    simp [Uap.datagramReceived, hfound, hcmd, hne, h, CMD_DATA, CMD_HELLO]

/-- C2 witness: the amended claim evaluated on a session expecting 3,
for a duplicate DATA(2) and a stale DATA(0). -/
theorem claim2_witness :
    (Srv.datagramReceived ⟨[(5, ⟨3, 9, 0⟩)], 0, 0⟩
        (some ⟨1, 2, 5, 0, 0, [104]⟩) 9 7).2.1.countP
      (fun o => o.command == CMD_ALIVE) = 1 ∧
    (Srv.datagramReceived ⟨[(5, ⟨3, 9, 0⟩)], 0, 0⟩
        (some ⟨1, 0, 5, 0, 0, [104]⟩) 9 7).2.1.countP
      (fun o => o.command == CMD_ALIVE) = 0 ∧
    lookupSess (Srv.datagramReceived ⟨[(5, ⟨3, 9, 0⟩)], 0, 0⟩
        (some ⟨1, 2, 5, 0, 0, [104]⟩) 9 7).1.sessions 5 = some ⟨3, 9, 7⟩ ∧
    Uap.datagramReceived ⟨[(5, ⟨3, 9, 0⟩)], 0, 0⟩
        (some ⟨1, 2, 5, 0, 0, [104]⟩) 9 7 =
      (⟨[(5, ⟨3, 9, 0⟩)], 0, 0⟩, [], [Rec.duplicateBang]) := by
  have hdup := claim2_amended_alive_discipline ⟨[(5, ⟨3, 9, 0⟩)], 0, 0⟩
    ⟨1, 2, 5, 0, 0, [104]⟩ 9 7 ⟨3, 9, 0⟩ rfl rfl
  have hstale := claim2_amended_alive_discipline ⟨[(5, ⟨3, 9, 0⟩)], 0, 0⟩
    ⟨1, 0, 5, 0, 0, [104]⟩ 9 7 ⟨3, 9, 0⟩ rfl rfl
  exact ⟨hdup.1 (Or.inr (Or.inl (by decide))), hstale.2.1 (by decide),
    hdup.2.2.1 (by decide), hdup.2.2.2 (by decide)⟩

/-- C3: a DATA with `seq = expected + N` (`N ≥ 1`) on an existing
session makes both servers emit exactly `N` lost-packet records (one per
missing number in `[expected, seq)` — `server.py` names each missing
number, `server_uap.py` prints a bare line `N` times), emit the packet's
payload exactly once after them, set `expected` to `seq + 1`, and reply
with exactly one ALIVE. -/
theorem claim3_gap_behaviour (st : SrvState) (pkt : Pkt) (addr : Nat)
    (now : Int) (sess : Session) (N : Nat)
    (hfound : lookupSess st.sessions pkt.session_id = some sess)
    (hcmd : pkt.command = CMD_DATA) (hN : 1 ≤ N)
    (hseq : pkt.seq = sess.expected + N) :
    ((Srv.datagramReceived st (some pkt) addr now).2.2 =
      (List.range' sess.expected N).map (Rec.lost pkt.session_id) ++
        [Rec.payloadLine pkt.session_id pkt.seq pkt.payload]) ∧
    ((Srv.datagramReceived st (some pkt) addr now).2.1.countP
      (fun o => o.command == CMD_ALIVE) = 1) ∧
    (lookupSess (Srv.datagramReceived st (some pkt) addr now).1.sessions
        pkt.session_id = some ⟨pkt.seq + 1, sess.addr, now⟩) ∧
    ((Uap.datagramReceived st (some pkt) addr now).2.2 =
      List.replicate N Rec.lostBang ++
        [Rec.payloadLine pkt.session_id pkt.seq pkt.payload]) ∧
    ((Uap.datagramReceived st (some pkt) addr now).2.1.countP
      (fun o => o.command == CMD_ALIVE) = 1) ∧
    (lookupSess (Uap.datagramReceived st (some pkt) addr now).1.sessions
        pkt.session_id = some ⟨pkt.seq + 1, sess.addr, sess.last_seen⟩) := by
  have hgt : pkt.seq > sess.expected := by omega
  have hsub : pkt.seq - sess.expected = N := by omega
  have hne : pkt.seq ≠ sess.expected := by omega
  have hne' : ¬ ((pkt.seq : Int) = (sess.expected : Int) - 1) := by omega
  have hnlt : ¬ ((pkt.seq : Int) < (sess.expected : Int) - 1) := by omega
  have hsrv := Srv.datagramReceived_gap st pkt addr now sess hfound hcmd hgt
  have huap : Uap.datagramReceived st (some pkt) addr now =
      (⟨setSess st.sessions pkt.session_id
          ⟨pkt.seq + 1, sess.addr, sess.last_seen⟩,
        st.server_seq + 1, st.server_clock⟩,
       [⟨CMD_ALIVE, st.server_seq, pkt.session_id, st.server_clock, now,
         addr⟩],
       List.replicate (pkt.seq - sess.expected) Rec.lostBang ++
         [Rec.payloadLine pkt.session_id pkt.seq pkt.payload]) := by
    simp [Uap.datagramReceived, hfound, hcmd, hne, hne', hnlt, hgt,
      CMD_DATA, CMD_HELLO]
  refine ⟨?_, ?_, ?_, ?_, ?_, ?_⟩
  · rw [hsrv, hsub]
  · rw [hsrv]; rfl
  · rw [hsrv, setSess_setSess]
    exact lookupSess_setSess_self hfound _
  · rw [huap, hsub]
  · rw [huap]; rfl
  · rw [huap]
    exact lookupSess_setSess_self hfound _

/-- C3 witness: the gap behaviour evaluated for a session expecting 1
that receives DATA(3) — two lost records, one payload record, `expected`
becomes 4, one ALIVE — in both servers. -/
theorem claim3_witness :
    ((Srv.datagramReceived ⟨[(5, ⟨1, 9, 0⟩)], 0, 0⟩
        (some ⟨1, 3, 5, 0, 0, [104]⟩) 9 7).2.2 =
      [Rec.lost 5 1, Rec.lost 5 2, Rec.payloadLine 5 3 [104]]) ∧
    ((Srv.datagramReceived ⟨[(5, ⟨1, 9, 0⟩)], 0, 0⟩
        (some ⟨1, 3, 5, 0, 0, [104]⟩) 9 7).2.1.countP
      (fun o => o.command == CMD_ALIVE) = 1) ∧
    (lookupSess (Srv.datagramReceived ⟨[(5, ⟨1, 9, 0⟩)], 0, 0⟩
        (some ⟨1, 3, 5, 0, 0, [104]⟩) 9 7).1.sessions 5 = some ⟨4, 9, 7⟩) ∧
    ((Uap.datagramReceived ⟨[(5, ⟨1, 9, 0⟩)], 0, 0⟩
        (some ⟨1, 3, 5, 0, 0, [104]⟩) 9 7).2.2 =
      [Rec.lostBang, Rec.lostBang, Rec.payloadLine 5 3 [104]]) ∧
    ((Uap.datagramReceived ⟨[(5, ⟨1, 9, 0⟩)], 0, 0⟩
        (some ⟨1, 3, 5, 0, 0, [104]⟩) 9 7).2.1.countP
      (fun o => o.command == CMD_ALIVE) = 1) ∧
    (lookupSess (Uap.datagramReceived ⟨[(5, ⟨1, 9, 0⟩)], 0, 0⟩
        (some ⟨1, 3, 5, 0, 0, [104]⟩) 9 7).1.sessions 5 = some ⟨4, 9, 0⟩) := by
  have h := claim3_gap_behaviour ⟨[(5, ⟨1, 9, 0⟩)], 0, 0⟩
    ⟨1, 3, 5, 0, 0, [104]⟩ 9 7 ⟨1, 9, 0⟩ 2 rfl rfl (by decide) rfl
  exact ⟨by simpa using h.1, h.2.1, h.2.2.1, by simpa using h.2.2.2.1,
    h.2.2.2.2.1, h.2.2.2.2.2⟩

/-- C10 witness: two ALIVE headers that differ in sequence number and
session id produce the identical READY_TIMER transition. -/
theorem claim10_witness :
    Client.clientReceive ⟨Client.CState.readyTimer, 3, 0, 0⟩
        ⟨50273, 1, 2, 5, 111, 7, 2⟩ 10 =
      Client.clientReceive ⟨Client.CState.readyTimer, 3, 0, 0⟩
        ⟨50273, 1, 2, 9, 222, 7, 2⟩ 10 :=
  claim10_receive_noninterference _ _ _ 10 rfl rfl rfl

end UAP
